import Mathlib

/-!
Shallow embedding of the donation ledger of the poor-kids-donation backend:
fee calculation, receipt generation and the pre-save hook from
src/backend/src/models/Donation.ts, the donor-count helper from
src/backend/src/models/Campaign.ts, and the controller operations
(createDonation, updateDonationStatus, refundDonation) from
src/backend/src/controllers/donationController.ts.

Money is modelled exactly over the rationals; the JS `Math.round` is
embedded as floor of x + 1/2.  Database documents are records, and every
operation that issues several persistence calls is embedded as the list of
store writes it performs, in program order, so that both the final state
and every intermediate store state are definable.
-/

namespace PoorKids

/-- Payment methods of the donation schema (Donation.ts line 10). -/
inductive PaymentMethod where
  | stripe
  | paypal
  | bank_transfer
  | crypto
deriving DecidableEq, Repr

/-- Donation statuses (Donation.ts line 13). -/
inductive DonationStatus where
  | pending
  | processing
  | completed
  | failed
  | refunded
  | cancelled
deriving DecidableEq, Repr

/-- Campaign lifecycle statuses (Campaign.ts line 32). -/
inductive CampaignStatus where
  | draft
  | active
  | paused
  | completed
  | cancelled
deriving DecidableEq, Repr

/-- JS `Math.round(x * 100) / 100`: round to 2 decimals, halves toward plus
infinity (`Math.round x = Math.floor (x + 0.5)`). -/
def round2 (q : ℚ) : ℚ := ((⌊q * 100 + 1 / 2⌋ : ℤ) : ℚ) / 100

/-- The `fees` subdocument of a donation (Donation.ts lines 28-32). -/
structure Fees where
  platformFee : ℚ
  paymentProcessingFee : ℚ
  totalFees : ℚ
deriving DecidableEq, Repr

/-- `donationSchema.methods.calculateFees` (Donation.ts lines 271-304) as a
function of the two document fields it reads; returns the fees subdocument
and the `netAmount` it assigns. -/
def calculateFees (amount : ℚ) (m : PaymentMethod) : Fees × ℚ :=
  let platformFee := round2 (amount * (25 / 1000))
  let paymentProcessingFee :=
    match m with
    | .stripe => round2 (amount * (29 / 1000) + 30 / 100)
    | .paypal => round2 (amount * (349 / 10000) + 49 / 100)
    | .bank_transfer => 1
    | .crypto => round2 (amount * (1 / 100))
  let totalFees := round2 (platformFee + paymentProcessingFee)
  let netAmount := round2 (amount - totalFees)
  (⟨platformFee, paymentProcessingFee, totalFees⟩, netAmount)

/-- The `dedicatedTo` subdocument (Donation.ts lines 16-20). -/
structure Dedication where
  name : String
  email : Option String
  message : Option String
deriving DecidableEq, Repr

/-- The `refund` subdocument written by `processRefund`
(Donation.ts lines 40-46 and 352-359). -/
structure RefundRecord where
  refundId : String
  refundAmount : ℚ
  refundReason : String
  refundedAt : ℕ
  refundedBy : ℕ
deriving DecidableEq, Repr

/-- A donation document.  Timestamps are naturals; object ids are naturals.
`refundReason`, `refundedAt`, `refundedBy` are the loose top-level fields the
refund path of the controller assigns (donationController.ts lines 477-479),
distinct from the `refund` subdocument of the schema. -/
structure DonationDoc where
  id : ℕ
  donor : Option ℕ
  campaign : ℕ
  amount : ℚ
  currency : String
  paymentMethod : PaymentMethod
  paymentIntentId : Option String
  transactionId : Option String
  status : DonationStatus
  isAnonymous : Bool
  message : Option String
  dedicatedTo : Option Dedication
  fees : Fees
  netAmount : ℚ
  receiptNumber : Option String
  refund : Option RefundRecord
  refundReason : Option String
  refundedAt : Option ℕ
  refundedBy : Option ℕ
  completedAt : Option ℕ
  createdAt : ℕ
deriving DecidableEq, Repr

/-- The campaign fields the donation engine touches (Campaign.ts). -/
structure CampaignDoc where
  id : ℕ
  goalAmount : ℚ
  currentAmount : ℚ
  donorCount : ℤ
  status : CampaignStatus
  isActive : Bool
deriving DecidableEq, Repr

/-- The `donationStats` subdocument of a user (User.ts lines 43-47). -/
structure DonationStats where
  totalDonated : ℚ
  donationCount : ℤ
  firstDonation : Option ℕ
  lastDonation : Option ℕ
deriving DecidableEq, Repr

/-- A user document.  The model methods write `donationStats.*` paths,
which the User schema defines (Donation.ts lines 318-330, User.ts lines
157-167).  The controller updates instead target top-level `totalDonated` /
`donationCount` paths (donationController.ts lines 173-182 and 490-498)
that the schema does not define, so mongoose strict mode strips those
operations and they alter nothing; only the schema fields are kept here. -/
structure UserDoc where
  id : ℕ
  donationStats : DonationStats
deriving DecidableEq, Repr

/-- Ambient data consumed by the pre-save hook: the current date read by
`generateReceiptNumber` and the 6-character upper-cased base-36 string
obtained from `Math.random` (external randomness). -/
structure SaveContext where
  year : ℕ
  month : ℕ
  day : ℕ
  rand : String
deriving DecidableEq, Repr

/-- JS padStart of the numeral to width 2 with leading zero, for the month and day components. -/
def pad2 (n : ℕ) : String := if n < 10 then "0" ++ toString n else toString n

/-- `donationSchema.methods.generateReceiptNumber` (Donation.ts lines
260-268): `PKD-YYYYMMDD-` followed by the random suffix. -/
def generateReceiptNumber (ctx : SaveContext) : String :=
  "PKD-" ++ toString ctx.year ++ pad2 ctx.month ++ pad2 ctx.day ++ "-" ++ ctx.rand

/-- The pre-save hook of the donation schema (Donation.ts lines 245-257):
assign a receipt number if absent, then recompute fees if `totalFees` is
still zero. -/
def donationPreSave (ctx : SaveContext) (d : DonationDoc) : DonationDoc :=
  let d1 :=
    if d.receiptNumber = none then
      { d with receiptNumber := some (generateReceiptNumber ctx) }
    else d
  if d1.fees.totalFees = 0 then
    let fr := calculateFees d1.amount d1.paymentMethod
    { d1 with fees := fr.1, netAmount := fr.2 }
  else d1

/-- The persistent store: one donation, its campaign, its donor. -/
structure Store where
  donation : DonationDoc
  campaign : CampaignDoc
  user : UserDoc
deriving DecidableEq, Repr

/-- Run a list of store writes in order. -/
def applyWrites (ws : List (Store → Store)) (st : Store) : Store :=
  ws.foldl (fun s f => f s) st

/-- The store state visible after the first `k` of the writes. -/
def applyFirst (k : ℕ) (ws : List (Store → Store)) (st : Store) : Store :=
  applyWrites (ws.take k) st

/-- `campaignSchema.methods.incrementDonorCount` (Campaign.ts lines
482-484): an unconditional `$inc donorCount: 1`. -/
def incrementDonorCount (c : CampaignDoc) : CampaignDoc :=
  { c with donorCount := c.donorCount + 1 }

/-- The store writes issued by the controller `updateDonationStatus`
(donationController.ts lines 148-204), in program order.  The donation is
read once up front; its fields are mutated in memory; when the requested
status is `completed` the campaign `$inc` and (if a donor is set) an
awaited user update are issued, and the in-memory donation is saved last.
The user update targets top-level `totalDonated` / `donationCount` paths
absent from the User schema, so strict mode strips it and the awaited
write changes nothing.  No check of the current status is performed. -/
def updateDonationStatusWrites (newStatus : DonationStatus)
    (pid tid : Option String) (now : ℕ) (ctx : SaveContext) (st : Store) :
    List (Store → Store) :=
  let d := st.donation
  let d1 : DonationDoc :=
    { d with
      status := newStatus
      paymentIntentId := if pid.isSome then pid else d.paymentIntentId
      transactionId := if tid.isSome then tid else d.transactionId
      completedAt :=
        if newStatus = DonationStatus.completed then some now else d.completedAt }
  let saveDonation : Store → Store := fun s => { s with donation := donationPreSave ctx d1 }
  if newStatus = DonationStatus.completed then
    (fun s => { s with campaign :=
        { s.campaign with currentAmount := s.campaign.currentAmount + d.amount } }) ::
    ((if d.donor.isSome then
        -- User.findByIdAndUpdate with $inc totalDonated / donationCount:
        -- both paths are absent from the User schema, so strict mode
        -- strips them and the awaited update writes nothing
        [fun s => s]
      else []) ++ [saveDonation])
  else [saveDonation]

/-- Final store after the controller `updateDonationStatus`. -/
def updateDonationStatus (newStatus : DonationStatus) (pid tid : Option String)
    (now : ℕ) (ctx : SaveContext) (st : Store) : Store :=
  applyWrites (updateDonationStatusWrites newStatus pid tid now ctx st) st

/-- The store writes issued by `donationSchema.methods.markAsCompleted`
(Donation.ts lines 307-333): campaign `$inc currentAmount: netAmount`,
then the donor-stats `$inc`, then `this.save()`.  No `completedAt` is set
on this path. -/
def markAsCompletedWrites (now : ℕ) (ctx : SaveContext) (st : Store) :
    List (Store → Store) :=
  let d := st.donation
  let d1 : DonationDoc := { d with status := DonationStatus.completed }
  (fun s => { s with campaign :=
      { s.campaign with currentAmount := s.campaign.currentAmount + d.netAmount } }) ::
  ((if d.donor.isSome then
      [fun s => { s with user :=
        { s.user with donationStats :=
          { s.user.donationStats with
            totalDonated := s.user.donationStats.totalDonated + d.amount,
            donationCount := s.user.donationStats.donationCount + 1,
            lastDonation := some now } } }]
    else []) ++
  [fun s => { s with donation := donationPreSave ctx d1 }])

/-- Final store after `markAsCompleted`. -/
def markAsCompleted (now : ℕ) (ctx : SaveContext) (st : Store) : Store :=
  applyWrites (markAsCompletedWrites now ctx st) st

/-- The store writes issued by `donationSchema.methods.processRefund`
(Donation.ts lines 347-381): status set to `refunded`, the refund
subdocument attached, campaign `$inc currentAmount: -amount`, user stats
`$inc -amount / -1`, then `this.save()`.  No bound on `amount` is
checked. -/
def processRefundWrites (amount : ℚ) (reason : String) (refundedBy : ℕ)
    (now : ℕ) (ctx : SaveContext) (st : Store) : List (Store → Store) :=
  let d := st.donation
  let d1 : DonationDoc :=
    { d with
      status := DonationStatus.refunded
      refund := some
        { refundId := "refund_" ++ toString now
          refundAmount := amount
          refundReason := reason
          refundedAt := now
          refundedBy := refundedBy } }
  (fun s => { s with campaign :=
      { s.campaign with currentAmount := s.campaign.currentAmount - amount } }) ::
  ((if d.donor.isSome then
      [fun s => { s with user :=
        { s.user with donationStats :=
          { s.user.donationStats with
            totalDonated := s.user.donationStats.totalDonated - amount,
            donationCount := s.user.donationStats.donationCount - 1 } } }]
    else []) ++
  [fun s => { s with donation := donationPreSave ctx d1 }])

/-- Final store after `processRefund`. -/
def processRefund (amount : ℚ) (reason : String) (refundedBy : ℕ)
    (now : ℕ) (ctx : SaveContext) (st : Store) : Store :=
  applyWrites (processRefundWrites amount reason refundedBy now ctx st) st

/-- Errors of the controller refund path. -/
inductive RefundError where
  | onlyCompleted
deriving DecidableEq, Repr

/-- The store writes issued by the controller `refundDonation`
(donationController.ts lines 462-519).  Refusal when the status is not
`completed` happens before any write; otherwise the donation is saved
first (status `refunded`, loose refund fields), then the campaign is
decremented by the gross `donation.amount`, then an awaited user update is
issued whose `$inc` targets top-level `totalDonated` / `donationCount`
paths absent from the User schema, so strict mode strips it and it writes
nothing.  No amount parameter exists: the full gross amount is always
reversed. -/
def refundDonationWrites (reason : Option String) (adminId : Option ℕ)
    (now : ℕ) (ctx : SaveContext) (st : Store) :
    Except RefundError (List (Store → Store)) :=
  let d := st.donation
  if d.status ≠ DonationStatus.completed then .error .onlyCompleted
  else
    let d1 : DonationDoc :=
      { d with
        status := DonationStatus.refunded
        refundReason := reason
        refundedAt := some now
        refundedBy := adminId }
    .ok ((fun s => { s with donation := donationPreSave ctx d1 }) ::
      ((fun s => { s with campaign :=
          { s.campaign with currentAmount := s.campaign.currentAmount - d.amount } }) ::
      (if d.donor.isSome then
        -- stripped by strict mode: the $inc paths are not in the schema
        [fun s => s]
      else [])))

/-- Final result of the controller `refundDonation`. -/
def refundDonation (reason : Option String) (adminId : Option ℕ)
    (now : ℕ) (ctx : SaveContext) (st : Store) : Except RefundError Store :=
  (refundDonationWrites reason adminId now ctx st).map (fun ws => applyWrites ws st)

/-- Errors of the controller create path. -/
inductive CreateError where
  | notAcceptingDonations
  | validationFailed
deriving DecidableEq, Repr

/-- The document data assembled by the controller before any save
(donationController.ts lines 109-121), with the schema defaults applied:
payment method defaults to stripe, anonymity to false, message to the
empty string, fees to zero.  The schema-required paths `netAmount` and
`receipt.receiptNumber` are supplied by nobody at this point — only the
pre-save hook would compute them, and mongoose runs validation first. -/
structure DonationCreateDoc where
  donor : Option ℕ
  campaign : ℕ
  amount : ℚ
  currency : String
  paymentMethod : PaymentMethod
  status : DonationStatus
  isAnonymous : Bool
  message : Option String
  fees : Fees
  netAmount : Option ℚ
  receiptNumber : Option String
deriving DecidableEq, Repr

/-- Mongoose document validation of the donation schema paths that are
required and have no default: `donor`, `netAmount` and
`receipt.receiptNumber` must be present and `amount` must lie within the
schema bounds 1..100000 (Donation.ts lines 73-88, 177-187).  Validation is
registered as the first pre-save step, so it runs before the user pre-save
hook. -/
def donationValidationOk (d : DonationCreateDoc) : Bool :=
  d.donor.isSome && d.netAmount.isSome && d.receiptNumber.isSome
    && decide ((1 : ℚ) ≤ d.amount) && decide (d.amount ≤ 100000)

/-- The controller `createDonation` (donationController.ts lines 94-145):
reject when the campaign is inactive or not `active`; otherwise assemble
the pending document and call `Donation.create`.  Because validation runs
before the pre-save hook and the assembled data carries neither
`netAmount` nor `receipt.receiptNumber`, validation always fails and no
donation record is produced; the ok branch (on which mongoose would go on
to run the pre-save hook) is unreachable from this data. -/
def createDonation (c : CampaignDoc) (amount : ℚ) (isAnonymous : Option Bool)
    (message : Option String) (pm : Option PaymentMethod) (donor : Option ℕ) :
    Except CreateError DonationCreateDoc :=
  if ¬ (c.isActive = true ∧ c.status = CampaignStatus.active) then
    .error .notAcceptingDonations
  else
    let data : DonationCreateDoc :=
      { donor := donor
        campaign := c.id
        amount := amount
        currency := "USD"
        paymentMethod := pm.getD PaymentMethod.stripe
        status := DonationStatus.pending
        isAnonymous := isAnonymous.getD false
        message := some (message.getD "")
        fees := ⟨0, 0, 0⟩
        netAmount := none
        receiptNumber := none }
    if donationValidationOk data then .ok data else .error .validationFailed

/-- The `donor` field of the public projection: either the literal
`Anonymous` label or the donor reference. -/
inductive PublicDonor where
  | anonymousLabel
  | donorRef (id : Option ℕ)
deriving DecidableEq, Repr

/-- Shape of the object returned by `getPublicInfo`. -/
structure PublicInfo where
  id : ℕ
  amount : Option ℚ
  formattedAmount : Option String
  donor : PublicDonor
  message : Option String
  dedicatedTo : Option Dedication
  createdAt : ℕ
deriving DecidableEq, Repr

/-- `donationSchema.methods.getPublicInfo` (Donation.ts lines 392-402).
The `formattedAmount` virtual delegates to `Intl.NumberFormat`, an external
library; it is taken as a parameter `fmt` of the currency and the amount. -/
def getPublicInfo (fmt : String → ℚ → String) (d : DonationDoc) : PublicInfo :=
  { id := d.id
    amount := if d.isAnonymous then none else some d.amount
    formattedAmount := if d.isAnonymous then none else some (fmt d.currency d.amount)
    donor := if d.isAnonymous then PublicDonor.anonymousLabel else PublicDonor.donorRef d.donor
    message := d.message
    dedicatedTo := d.dedicatedTo
    createdAt := d.createdAt }

/-! ### Concrete scenario: gross 100.00 USD via stripe -/

/-- Fees stamped on a gross 100.00 stripe donation: platform 2.50,
processing 3.20, total 5.70. -/
def feesScenario1 : Fees := ⟨5 / 2, 16 / 5, 57 / 10⟩

/-- A pending donation of gross 100.00 USD via stripe with netAmount 94.30,
donor 7, campaign 1, receipt already stamped at creation. -/
def donationScenario1 : DonationDoc :=
  { id := 1
    donor := some 7
    campaign := 1
    amount := 100
    currency := "USD"
    paymentMethod := PaymentMethod.stripe
    paymentIntentId := none
    transactionId := none
    status := DonationStatus.pending
    isAnonymous := false
    message := some ""
    dedicatedTo := none
    fees := feesScenario1
    netAmount := 943 / 10
    receiptNumber := some "PKD-20251011-A1B2C3"
    refund := none
    refundReason := none
    refundedAt := none
    refundedBy := none
    completedAt := none
    createdAt := 0 }

/-- A fresh active campaign with nothing raised yet. -/
def campaignScenario1 : CampaignDoc :=
  { id := 1, goalAmount := 1000, currentAmount := 0, donorCount := 0,
    status := CampaignStatus.active, isActive := true }

/-- The donor with zeroed lifetime stats. -/
def userScenario1 : UserDoc :=
  { id := 7, donationStats := ⟨0, 0, none, none⟩ }

/-- The fresh store of scenario 1. -/
def storeScenario1 : Store := ⟨donationScenario1, campaignScenario1, userScenario1⟩

/-- A save context: date 2025-10-11, random suffix ABCDEF. -/
def ctx0 : SaveContext := ⟨2025, 10, 11, "ABCDEF"⟩

/-- Scenario 1 after its donation already completed. -/
def storeCompletedEx : Store :=
  { storeScenario1 with donation := { donationScenario1 with status := DonationStatus.completed } }

/-- Scenario 1 after its donation was refunded. -/
def storeRefundedEx : Store :=
  { storeScenario1 with donation := { donationScenario1 with status := DonationStatus.refunded } }

/-- A rational is an exact number of currency cents: representable with two
decimal places. -/
def isCents (q : ℚ) : Prop := ∃ n : ℤ, q = (n : ℚ) / 100

/-- A donation identical to scenario 1 except marked anonymous. -/
def anonDonationEx : DonationDoc := { donationScenario1 with isAnonymous := true }

/-! ### General lemmas about the embedded operations -/

theorem donationPreSave_status (ctx : SaveContext) (d : DonationDoc) :
    (donationPreSave ctx d).status = d.status := by
  simp only [donationPreSave]
  split <;> split <;> rfl

theorem donationPreSave_amount (ctx : SaveContext) (d : DonationDoc) :
    (donationPreSave ctx d).amount = d.amount := by
  simp only [donationPreSave]
  split <;> split <;> rfl

theorem donationPreSave_receiptNumber (ctx : SaveContext) (d : DonationDoc) :
    (donationPreSave ctx d).receiptNumber
      = some (d.receiptNumber.getD (generateReceiptNumber ctx)) := by
  cases hr : d.receiptNumber <;>
    simp [donationPreSave, hr, apply_ite (fun x : DonationDoc => x.receiptNumber)]

theorem updateDonationStatus_donation_status (s : DonationStatus)
    (pid tid : Option String) (now : ℕ) (ctx : SaveContext) (st : Store) :
    (updateDonationStatus s pid tid now ctx st).donation.status = s := by
  simp only [updateDonationStatus, updateDonationStatusWrites, applyWrites]
  split <;> cases hd : st.donation.donor <;>
    simp [hd, List.foldl, donationPreSave_status]

theorem updateDonationStatus_completed_currentAmount
    (pid tid : Option String) (now : ℕ) (ctx : SaveContext) (st : Store) :
    (updateDonationStatus DonationStatus.completed pid tid now ctx st).campaign.currentAmount
      = st.campaign.currentAmount + st.donation.amount := by
  simp only [updateDonationStatus, updateDonationStatusWrites, applyWrites]
  cases hd : st.donation.donor <;> simp [hd, List.foldl]

theorem updateDonationStatus_donation_amount (s : DonationStatus)
    (pid tid : Option String) (now : ℕ) (ctx : SaveContext) (st : Store) :
    (updateDonationStatus s pid tid now ctx st).donation.amount = st.donation.amount := by
  simp only [updateDonationStatus, updateDonationStatusWrites, applyWrites]
  split <;> cases hd : st.donation.donor <;>
    simp [hd, List.foldl, donationPreSave_amount]

theorem updateDonationStatus_donorCount (s : DonationStatus)
    (pid tid : Option String) (now : ℕ) (ctx : SaveContext) (st : Store) :
    (updateDonationStatus s pid tid now ctx st).campaign.donorCount
      = st.campaign.donorCount := by
  simp only [updateDonationStatus, updateDonationStatusWrites, applyWrites]
  split <;> cases hd : st.donation.donor <;> simp [hd, List.foldl]

theorem updateDonationStatus_user (s : DonationStatus)
    (pid tid : Option String) (now : ℕ) (ctx : SaveContext) (st : Store) :
    (updateDonationStatus s pid tid now ctx st).user = st.user := by
  simp only [updateDonationStatus, updateDonationStatusWrites, applyWrites]
  split <;> cases hd : st.donation.donor <;> simp [hd, List.foldl]

theorem updateDonationStatus_receiptNumber (s : DonationStatus)
    (pid tid : Option String) (now : ℕ) (ctx : SaveContext) (st : Store) :
    (updateDonationStatus s pid tid now ctx st).donation.receiptNumber
      = some (st.donation.receiptNumber.getD (generateReceiptNumber ctx)) := by
  simp only [updateDonationStatus, updateDonationStatusWrites, applyWrites]
  split <;> cases hd : st.donation.donor <;>
    simp [hd, List.foldl, donationPreSave_receiptNumber]

theorem markAsCompleted_currentAmount (now : ℕ) (ctx : SaveContext) (st : Store) :
    (markAsCompleted now ctx st).campaign.currentAmount
      = st.campaign.currentAmount + st.donation.netAmount := by
  simp only [markAsCompleted, markAsCompletedWrites, applyWrites]
  cases hd : st.donation.donor <;> simp [hd, List.foldl]

theorem markAsCompleted_donorCount (now : ℕ) (ctx : SaveContext) (st : Store) :
    (markAsCompleted now ctx st).campaign.donorCount = st.campaign.donorCount := by
  simp only [markAsCompleted, markAsCompletedWrites, applyWrites]
  cases hd : st.donation.donor <;> simp [hd, List.foldl]

theorem processRefund_currentAmount (a : ℚ) (reason : String) (rb now : ℕ)
    (ctx : SaveContext) (st : Store) :
    (processRefund a reason rb now ctx st).campaign.currentAmount
      = st.campaign.currentAmount - a := by
  simp only [processRefund, processRefundWrites, applyWrites]
  cases hd : st.donation.donor <;> simp [hd, List.foldl]

theorem processRefund_donation_status (a : ℚ) (reason : String) (rb now : ℕ)
    (ctx : SaveContext) (st : Store) :
    (processRefund a reason rb now ctx st).donation.status = DonationStatus.refunded := by
  simp only [processRefund, processRefundWrites, applyWrites]
  cases hd : st.donation.donor <;>
    simp [hd, List.foldl, donationPreSave_status]

theorem refundDonation_error_of_not_completed (reason : Option String) (adminId : Option ℕ)
    (now : ℕ) (ctx : SaveContext) (st : Store)
    (h : st.donation.status ≠ DonationStatus.completed) :
    refundDonation reason adminId now ctx st = Except.error RefundError.onlyCompleted := by
  simp [refundDonation, refundDonationWrites, h, Except.map]

theorem refundDonation_currentAmount_of_completed (reason : Option String)
    (adminId : Option ℕ) (now : ℕ) (ctx : SaveContext) (st : Store)
    (h : st.donation.status = DonationStatus.completed) :
    (refundDonation reason adminId now ctx st).map (fun σ => σ.campaign.currentAmount)
      = Except.ok (st.campaign.currentAmount - st.donation.amount) := by
  simp only [refundDonation, refundDonationWrites, applyWrites, h]
  cases hd : st.donation.donor <;> simp [hd, List.foldl, Except.map]

/-! ### Arithmetic lemmas for the fee calculator -/

theorem round2_isCents (q : ℚ) : isCents (round2 q) := ⟨⌊q * 100 + 1 / 2⌋, rfl⟩

theorem isCents_one : isCents 1 := ⟨100, by norm_num⟩

theorem isCents_add {a b : ℚ} (ha : isCents a) (hb : isCents b) : isCents (a + b) := by
  obtain ⟨m, rfl⟩ := ha
  obtain ⟨n, rfl⟩ := hb
  exact ⟨m + n, by push_cast; ring⟩

theorem isCents_sub {a b : ℚ} (ha : isCents a) (hb : isCents b) : isCents (a - b) := by
  obtain ⟨m, rfl⟩ := ha
  obtain ⟨n, rfl⟩ := hb
  exact ⟨m - n, by push_cast; ring⟩

theorem round2_eq_self {q : ℚ} (h : isCents q) : round2 q = q := by
  obtain ⟨n, rfl⟩ := h
  unfold round2
  have h1 : (n : ℚ) / 100 * 100 + 1 / 2 = (n : ℚ) + 1 / 2 := by field_simp
  rw [h1, Int.floor_int_add]
  have h2 : ⌊(1 : ℚ) / 2⌋ = 0 := by norm_num
  rw [h2]
  norm_num

theorem calcFees_identity (a : ℚ) (m : PaymentMethod) (h : isCents a) :
    (calculateFees a m).2 + (calculateFees a m).1.platformFee
      + (calculateFees a m).1.paymentProcessingFee = a := by
  cases m <;>
    simp only [calculateFees] <;>
    rw [round2_eq_self (isCents_add (round2_isCents _) (by first
          | exact round2_isCents _
          | exact isCents_one))] <;>
    rw [round2_eq_self (isCents_sub h (isCents_add (round2_isCents _) (by first
          | exact round2_isCents _
          | exact isCents_one)))] <;>
    ring

theorem createDonation_never_ok (c : CampaignDoc) (amount : ℚ)
    (isAnonymous : Option Bool) (message : Option String)
    (pm : Option PaymentMethod) (donor : Option ℕ) :
    createDonation c amount isAnonymous message pm donor
      = Except.error (if c.isActive = true ∧ c.status = CampaignStatus.active
          then CreateError.validationFailed
          else CreateError.notAcceptingDonations) := by
  by_cases hc : c.isActive = true ∧ c.status = CampaignStatus.active <;>
    simp [createDonation, donationValidationOk, hc]

/-! ### Claims -/

/-- C1: the claim asserts that completing a donation increases the campaign
raised amount by the net amount (94.30 on a gross 100.00 stripe donation,
not the gross 100.00).  On the controller path actually wired to the status
route, completing the scenario-1 donation increases `currentAmount` by the
gross 100.00, even though the same donation carries `netAmount` 94.30 and
the model method `markAsCompleted` (called by no route) adds exactly the
net 94.30: the two code paths contradict each other and the controller
contradicts the claim. -/
theorem C1_completion_credits_gross_not_net :
    (updateDonationStatus DonationStatus.completed none none 5 ctx0
        storeScenario1).campaign.currentAmount
      - storeScenario1.campaign.currentAmount = 100
    ∧ storeScenario1.donation.netAmount = 943 / 10
    ∧ (markAsCompleted 5 ctx0 storeScenario1).campaign.currentAmount
      - storeScenario1.campaign.currentAmount = 943 / 10
    ∧ (100 : ℚ) ≠ 943 / 10 := by
  refine ⟨?_, rfl, ?_, by norm_num⟩
  · rw [updateDonationStatus_completed_currentAmount]
    norm_num [storeScenario1, donationScenario1, campaignScenario1]
  · rw [markAsCompleted_currentAmount]
    norm_num [storeScenario1, donationScenario1, campaignScenario1]

/-- C2 counterexample: the claim asserts completion is idempotent, so two
deliveries of the same completion change the raised amount by one net
amount (94.30).  Applying the completed transition twice to the scenario-1
store raises `currentAmount` by 200, twice the gross, refuting the claim. -/
theorem C2_cx_double_completion_double_counts :
    (updateDonationStatus DonationStatus.completed none none 6 ctx0
        (updateDonationStatus DonationStatus.completed none none 5 ctx0
          storeScenario1)).campaign.currentAmount
      - storeScenario1.campaign.currentAmount = 200
    ∧ storeScenario1.donation.netAmount = 943 / 10
    ∧ (200 : ℚ) ≠ 943 / 10 := by
  refine ⟨?_, rfl, by norm_num⟩
  rw [updateDonationStatus_completed_currentAmount,
      updateDonationStatus_completed_currentAmount,
      updateDonationStatus_donation_amount]
  norm_num [storeScenario1, donationScenario1, campaignScenario1]

/-- C2 amended: completion is not idempotent.  The controller performs no
payment-reference or current-status check, so every application of the
completed transition re-applies the campaign aggregate effect: two
applications increase the campaign raised amount by twice the gross
donation amount.  The donor document, by contrast, is never changed by
this path at all: the user update targets top-level paths absent from the
User schema, which strict mode strips. -/
theorem C2_amended_each_completion_readds_gross
    (pid1 tid1 pid2 tid2 : Option String) (n1 n2 : ℕ) (c1 c2 : SaveContext) (st : Store) :
    (updateDonationStatus DonationStatus.completed pid2 tid2 n2 c2
        (updateDonationStatus DonationStatus.completed pid1 tid1 n1 c1 st)).campaign.currentAmount
      = st.campaign.currentAmount + st.donation.amount + st.donation.amount
    ∧ (updateDonationStatus DonationStatus.completed pid1 tid1 n1 c1 st).user = st.user := by
  constructor
  · rw [updateDonationStatus_completed_currentAmount,
        updateDonationStatus_completed_currentAmount,
        updateDonationStatus_donation_amount]
  · exact updateDonationStatus_user DonationStatus.completed pid1 tid1 n1 c1 st

/-- C3 counterexample: the claim asserts a refund amount above the
remaining net amount fails with a validation error and leaves the records
unchanged.  Refunding 1000 on the completed scenario-1 donation (net
94.30) succeeds: the campaign is decremented by the full 1000 and the
donation is marked refunded, refuting the claim. -/
theorem C3_cx_excess_refund_applied :
    storeCompletedEx.donation.netAmount = 943 / 10
    ∧ (943 / 10 : ℚ) < 1000
    ∧ (processRefund 1000 "chargeback" 9 5 ctx0 storeCompletedEx).campaign.currentAmount
        = storeCompletedEx.campaign.currentAmount - 1000
    ∧ (processRefund 1000 "chargeback" 9 5 ctx0 storeCompletedEx).donation.status
        = DonationStatus.refunded :=
  ⟨rfl, by norm_num, processRefund_currentAmount 1000 "chargeback" 9 5 ctx0 storeCompletedEx,
    processRefund_donation_status 1000 "chargeback" 9 5 ctx0 storeCompletedEx⟩

/-- C3 amended: no refund-amount validation exists.  The model method
`processRefund` applies any requested amount unconditionally, decrementing
the campaign raised amount by exactly that amount; the controller refund
path takes no amount parameter at all and, whenever the donation is
completed, reverses the full gross amount. -/
theorem C3_amended_refund_amount_unvalidated (a : ℚ) (reason : String) (rb now : ℕ)
    (ctx : SaveContext) (st : Store) (r2 : Option String) (adm : Option ℕ) :
    (processRefund a reason rb now ctx st).campaign.currentAmount
        = st.campaign.currentAmount - a
    ∧ (st.donation.status = DonationStatus.completed →
        (refundDonation r2 adm now ctx st).map (fun σ => σ.campaign.currentAmount)
          = Except.ok (st.campaign.currentAmount - st.donation.amount)) :=
  ⟨processRefund_currentAmount a reason rb now ctx st,
   fun h => refundDonation_currentAmount_of_completed r2 adm now ctx st h⟩

/-- C3 witness: the amended statement evaluated on the completed
scenario-1 store with an excessive amount 1000. -/
theorem C3_amended_refund_amount_unvalidated_witness :
    (processRefund 1000 "x" 9 5 ctx0 storeCompletedEx).campaign.currentAmount
        = storeCompletedEx.campaign.currentAmount - 1000
    ∧ (refundDonation none none 5 ctx0 storeCompletedEx).map (fun σ => σ.campaign.currentAmount)
        = Except.ok (storeCompletedEx.campaign.currentAmount - storeCompletedEx.donation.amount) :=
  ⟨(C3_amended_refund_amount_unvalidated 1000 "x" 9 5 ctx0 storeCompletedEx none none).1,
   (C3_amended_refund_amount_unvalidated 1000 "x" 9 5 ctx0 storeCompletedEx none none).2 rfl⟩

/-- C4 counterexample: the claim asserts that after a refund smaller than
the net amount the donation status remains completed.  Refunding 20 on the
completed scenario-1 donation (net 94.30) decrements the campaign by
exactly 20 but sets the donation status to refunded, refuting the claim. -/
theorem C4_cx_partial_refund_goes_terminal :
    storeCompletedEx.donation.netAmount = 943 / 10
    ∧ (20 : ℚ) < 943 / 10
    ∧ (processRefund 20 "goods returned" 9 5 ctx0 storeCompletedEx).campaign.currentAmount
        = storeCompletedEx.campaign.currentAmount - 20
    ∧ (processRefund 20 "goods returned" 9 5 ctx0 storeCompletedEx).donation.status
        = DonationStatus.refunded :=
  ⟨rfl, by norm_num, processRefund_currentAmount 20 "goods returned" 9 5 ctx0 storeCompletedEx,
    processRefund_donation_status 20 "goods returned" 9 5 ctx0 storeCompletedEx⟩

/-- C4 amended: every refund through `processRefund` decreases the
campaign raised amount by exactly the requested amount, but it always sets
the donation status to refunded, even when the amount is below the net
amount; there is no cumulative-refund tracking. -/
theorem C4_amended_refund_reverses_exact_amount_but_always_refunded (a : ℚ)
    (reason : String) (rb now : ℕ) (ctx : SaveContext) (st : Store) :
    (processRefund a reason rb now ctx st).campaign.currentAmount
        = st.campaign.currentAmount - a
    ∧ (processRefund a reason rb now ctx st).donation.status = DonationStatus.refunded :=
  ⟨processRefund_currentAmount a reason rb now ctx st,
   processRefund_donation_status a reason rb now ctx st⟩

/-- C5 counterexample: the claim asserts no record may re-enter pending and
that transitions from terminal states fail leaving the donation unchanged.
Requesting the pending status on an already refunded donation succeeds and
sets the status back to pending, refuting the claim. -/
theorem C5_cx_refunded_reenters_pending :
    storeRefundedEx.donation.status = DonationStatus.refunded
    ∧ (updateDonationStatus DonationStatus.pending none none 9 ctx0
        storeRefundedEx).donation.status = DonationStatus.pending :=
  ⟨rfl, updateDonationStatus_donation_status DonationStatus.pending none none 9 ctx0 storeRefundedEx⟩

/-- C5 amended: only the refund path is guarded.  The status-update
controller applies any requested status from any current status, so records
can re-enter pending or processing; the refund controller refuses (with an
only-completed-donations error, before any write) whenever the donation is
not completed.  No IllegalStateTransition taxonomy exists. -/
theorem C5_amended_only_refund_guarded (s : DonationStatus) (pid tid : Option String)
    (now : ℕ) (ctx : SaveContext) (st : Store) (reason : Option String) (adm : Option ℕ) :
    (updateDonationStatus s pid tid now ctx st).donation.status = s
    ∧ (st.donation.status ≠ DonationStatus.completed →
        refundDonation reason adm now ctx st = Except.error RefundError.onlyCompleted) :=
  ⟨updateDonationStatus_donation_status s pid tid now ctx st,
   fun h => refundDonation_error_of_not_completed reason adm now ctx st h⟩

/-- C5 witness: the amended statement evaluated on the refunded scenario-1
store, requesting the processing status and a refund. -/
theorem C5_amended_only_refund_guarded_witness :
    (updateDonationStatus DonationStatus.processing none none 9 ctx0
        storeRefundedEx).donation.status = DonationStatus.processing
    ∧ refundDonation none none 9 ctx0 storeRefundedEx
        = Except.error RefundError.onlyCompleted :=
  ⟨(C5_amended_only_refund_guarded DonationStatus.processing none none 9 ctx0
      storeRefundedEx none none).1,
   (C5_amended_only_refund_guarded DonationStatus.processing none none 9 ctx0
      storeRefundedEx none none).2 (by decide)⟩

/-- C6 counterexample: the claim asserts completing the first donation of a
donor to a campaign increments `donorCount` by 1.  Completing the very
first donation of donor 7 on the fresh scenario-1 campaign leaves
`donorCount` at 0 on both completion paths, refuting the claim. -/
theorem C6_cx_first_completion_leaves_donorCount :
    storeScenario1.campaign.donorCount = 0
    ∧ storeScenario1.donation.donor = some 7
    ∧ storeScenario1.donation.status = DonationStatus.pending
    ∧ (updateDonationStatus DonationStatus.completed none none 5 ctx0
        storeScenario1).campaign.donorCount = 0
    ∧ (markAsCompleted 5 ctx0 storeScenario1).campaign.donorCount = 0 := by
  refine ⟨rfl, rfl, rfl, ?_, ?_⟩
  · rw [updateDonationStatus_donorCount]
    rfl
  · rw [markAsCompleted_donorCount]
    rfl

/-- C6 amended: no completion path ever changes `donorCount` at all, and
the only helper that does (`incrementDonorCount`, which no completion path
invokes) is a blind unconditional increment without any distinctness
check. -/
theorem C6_amended_completion_never_touches_donorCount (s : DonationStatus)
    (pid tid : Option String) (now : ℕ) (ctx : SaveContext) (st : Store) (c : CampaignDoc) :
    (updateDonationStatus s pid tid now ctx st).campaign.donorCount = st.campaign.donorCount
    ∧ (markAsCompleted now ctx st).campaign.donorCount = st.campaign.donorCount
    ∧ (incrementDonorCount c).donorCount = c.donorCount + 1 :=
  ⟨updateDonationStatus_donorCount s pid tid now ctx st,
   markAsCompleted_donorCount now ctx st, rfl⟩

/-- C7: fee computation is a pure function of the amount and payment
method (two calls with equal inputs are definitionally equal), and for
every amount that is an exact number of cents, on every payment method,
`netAmount + platformFee + paymentProcessingFee` equals the gross
amount. -/
theorem C7_computeFees_pure_and_identity (a : ℚ) (m : PaymentMethod) (h : isCents a) :
    calculateFees a m = calculateFees a m
    ∧ (calculateFees a m).2 + (calculateFees a m).1.platformFee
        + (calculateFees a m).1.paymentProcessingFee = a :=
  ⟨rfl, calcFees_identity a m h⟩

/-- C7 witness: the identity evaluated at gross 100.00 via stripe. -/
theorem C7_computeFees_pure_and_identity_witness :
    isCents 100
    ∧ (calculateFees 100 PaymentMethod.stripe).2
        + (calculateFees 100 PaymentMethod.stripe).1.platformFee
        + (calculateFees 100 PaymentMethod.stripe).1.paymentProcessingFee = 100 :=
  ⟨⟨10000, by norm_num⟩,
    (C7_computeFees_pure_and_identity 100 PaymentMethod.stripe ⟨10000, by norm_num⟩).2⟩

/-- C8 counterexample: the claim asserts the receipt identifier is
assigned to every donation exactly once, at its first transition to
completed, and never exists while the donation is pending.  Concretely:
the creation path produces no donation at all (mongoose validates the
required but absent `netAmount` and `receipt.receiptNumber` before the
pre-save hook that would compute them, so `Donation.create` fails with a
ValidationError), and completing the persisted pending scenario-1 donation
assigns nothing — its receipt number was already present while pending
(the schema requires one on every persisted donation) and is unchanged by
the completed transition. -/
theorem C8_cx_no_receipt_issued_at_completed_transition :
    createDonation campaignScenario1 100 none none none (some 7)
      = Except.error CreateError.validationFailed
    ∧ storeScenario1.donation.status = DonationStatus.pending
    ∧ storeScenario1.donation.receiptNumber = some "PKD-20251011-A1B2C3"
    ∧ (updateDonationStatus DonationStatus.completed none none 5 ctx0
        storeScenario1).donation.receiptNumber = some "PKD-20251011-A1B2C3" := by
  refine ⟨?_, rfl, rfl, ?_⟩
  · simp [createDonation, donationValidationOk, campaignScenario1]
  · rw [updateDonationStatus_receiptNumber]
    rfl

/-- C8 amended: no receipt number is ever issued.  The creation path
always fails before the receipt-stamping pre-save hook can run, because
mongoose validation (registered ahead of user pre-save hooks) rejects the
absent required `netAmount` and `receipt.receiptNumber`; and on every
already-persisted donation — which necessarily carries a receipt number —
the hook keeps the existing value unchanged, so the transition to
completed assigns nothing. -/
theorem C8_amended_creation_rejected_and_receipt_never_reassigned
    (c : CampaignDoc) (amount : ℚ) (ian : Option Bool) (msg : Option String)
    (pm : Option PaymentMethod) (donor : Option ℕ)
    (ctx : SaveContext) (d : DonationDoc) (r : String)
    (pid tid : Option String) (n2 : ℕ) (st : Store) :
    createDonation c amount ian msg pm donor
      = Except.error (if c.isActive = true ∧ c.status = CampaignStatus.active
          then CreateError.validationFailed
          else CreateError.notAcceptingDonations)
    ∧ (d.receiptNumber = some r → (donationPreSave ctx d).receiptNumber = some r)
    ∧ (st.donation.receiptNumber = some r →
        (updateDonationStatus DonationStatus.completed pid tid n2 ctx
          st).donation.receiptNumber = some r) := by
  refine ⟨createDonation_never_ok c amount ian msg pm donor, fun hr => ?_, fun hr => ?_⟩
  · rw [donationPreSave_receiptNumber, hr]
    rfl
  · rw [updateDonationStatus_receiptNumber, hr]
    rfl

/-- C8 witness: the amended statement evaluated at a concrete creation
request on the active scenario-1 campaign and at the receipted scenario-1
donation. -/
theorem C8_amended_creation_rejected_witness :
    createDonation campaignScenario1 100 none none none (some 7)
      = Except.error CreateError.validationFailed
    ∧ (donationPreSave ctx0 donationScenario1).receiptNumber
        = some "PKD-20251011-A1B2C3"
    ∧ (updateDonationStatus DonationStatus.completed none none 5 ctx0
        storeScenario1).donation.receiptNumber = some "PKD-20251011-A1B2C3" := by
  have h := C8_amended_creation_rejected_and_receipt_never_reassigned
    campaignScenario1 100 none none none (some 7) ctx0 donationScenario1
    "PKD-20251011-A1B2C3" none none 5 storeScenario1
  refine ⟨?_, h.2.1 rfl, h.2.2 rfl⟩
  have h1 := h.1
  rw [if_pos ⟨rfl, rfl⟩] at h1
  exact h1

/-- C9 counterexample: the claim asserts the status write and the aggregate
updates form one atomic unit with no partially-applied state visible.
Completing the scenario-1 donation issues three separate store writes;
after the first write alone the campaign already includes the 100.00 while
the persisted donation is still pending, refuting the claim. -/
theorem C9_cx_intermediate_state_visible :
    1 < (updateDonationStatusWrites DonationStatus.completed none none 5 ctx0
        storeScenario1).length
    ∧ (applyFirst 1 (updateDonationStatusWrites DonationStatus.completed none none 5 ctx0
        storeScenario1) storeScenario1).campaign.currentAmount
      = storeScenario1.campaign.currentAmount + 100
    ∧ (applyFirst 1 (updateDonationStatusWrites DonationStatus.completed none none 5 ctx0
        storeScenario1) storeScenario1).donation.status = DonationStatus.pending := by
  refine ⟨?_, ?_, ?_⟩
  · simp [updateDonationStatusWrites, storeScenario1, donationScenario1]
  · simp [updateDonationStatusWrites, applyFirst, applyWrites, storeScenario1,
      donationScenario1, campaignScenario1]
  · simp [updateDonationStatusWrites, applyFirst, applyWrites, storeScenario1,
      donationScenario1]

/-- C9 amended: completion issues the campaign increment, the donor-stats
update and the donation save as separate sequential writes with the
campaign first, so after the first write the campaign aggregate already
includes the donation while the persisted donation status is unchanged;
the refund controller writes in the opposite order, so after its first
write the donation is already refunded while the campaign still includes
it.  No transaction wraps the writes. -/
theorem C9_amended_status_write_and_aggregate_writes_sequential
    (pid tid : Option String) (now : ℕ) (ctx : SaveContext) (st : Store)
    (reason : Option String) (adm : Option ℕ) :
    1 < (updateDonationStatusWrites DonationStatus.completed pid tid now ctx st).length
    ∧ (applyFirst 1 (updateDonationStatusWrites DonationStatus.completed pid tid now ctx st)
        st).campaign.currentAmount = st.campaign.currentAmount + st.donation.amount
    ∧ (applyFirst 1 (updateDonationStatusWrites DonationStatus.completed pid tid now ctx st)
        st).donation.status = st.donation.status
    ∧ (st.donation.status = DonationStatus.completed →
        (refundDonationWrites reason adm now ctx st).map
            (fun ws => ((applyFirst 1 ws st).donation.status,
                        (applyFirst 1 ws st).campaign.currentAmount))
          = Except.ok (DonationStatus.refunded, st.campaign.currentAmount)) := by
  refine ⟨?_, ?_, ?_, fun h => ?_⟩
  · cases hd : st.donation.donor <;> simp [updateDonationStatusWrites, hd]
  · cases hd : st.donation.donor <;>
      simp [updateDonationStatusWrites, applyFirst, applyWrites, hd]
  · cases hd : st.donation.donor <;>
      simp [updateDonationStatusWrites, applyFirst, applyWrites, hd]
  · simp [refundDonationWrites, h, applyFirst, applyWrites, Except.map,
      donationPreSave_status]

/-- C9 witness: the amended statement evaluated on the completed
scenario-1 store. -/
theorem C9_amended_status_write_witness :
    1 < (updateDonationStatusWrites DonationStatus.completed none none 5 ctx0
        storeCompletedEx).length
    ∧ (applyFirst 1 (updateDonationStatusWrites DonationStatus.completed none none 5 ctx0
        storeCompletedEx) storeCompletedEx).campaign.currentAmount
      = storeCompletedEx.campaign.currentAmount + storeCompletedEx.donation.amount
    ∧ (applyFirst 1 (updateDonationStatusWrites DonationStatus.completed none none 5 ctx0
        storeCompletedEx) storeCompletedEx).donation.status
      = storeCompletedEx.donation.status
    ∧ (refundDonationWrites none none 5 ctx0 storeCompletedEx).map
          (fun ws => ((applyFirst 1 ws storeCompletedEx).donation.status,
                      (applyFirst 1 ws storeCompletedEx).campaign.currentAmount))
        = Except.ok (DonationStatus.refunded, storeCompletedEx.campaign.currentAmount) :=
  ⟨(C9_amended_status_write_and_aggregate_writes_sequential none none 5 ctx0
      storeCompletedEx none none).1,
   (C9_amended_status_write_and_aggregate_writes_sequential none none 5 ctx0
      storeCompletedEx none none).2.1,
   (C9_amended_status_write_and_aggregate_writes_sequential none none 5 ctx0
      storeCompletedEx none none).2.2.1,
   (C9_amended_status_write_and_aggregate_writes_sequential none none 5 ctx0
      storeCompletedEx none none).2.2.2 rfl⟩

/-- C10: for every anonymous donation the public projection hides both the
amount (amount and formattedAmount are none) and the donor identity (the
donor field is the Anonymous label), and the projection is identical for
any two donations differing only in amount and donor. -/
theorem C10_anonymous_public_info (fmt : String → ℚ → String) (d : DonationDoc)
    (a : ℚ) (dn : Option ℕ) (h : d.isAnonymous = true) :
    (getPublicInfo fmt d).amount = none
    ∧ (getPublicInfo fmt d).formattedAmount = none
    ∧ (getPublicInfo fmt d).donor = PublicDonor.anonymousLabel
    ∧ getPublicInfo fmt { d with amount := a, donor := dn } = getPublicInfo fmt d := by
  simp [getPublicInfo, h]

/-- C10 witness: evaluated on the anonymous variant of the scenario-1
donation, varying its amount to 5 and dropping its donor. -/
theorem C10_anonymous_public_info_witness :
    anonDonationEx.isAnonymous = true
    ∧ ((getPublicInfo (fun c _ => c) anonDonationEx).amount = none
    ∧ (getPublicInfo (fun c _ => c) anonDonationEx).formattedAmount = none
    ∧ (getPublicInfo (fun c _ => c) anonDonationEx).donor = PublicDonor.anonymousLabel
    ∧ getPublicInfo (fun c _ => c) { anonDonationEx with amount := 5, donor := none }
        = getPublicInfo (fun c _ => c) anonDonationEx) :=
  ⟨rfl, C10_anonymous_public_info (fun c _ => c) anonDonationEx 5 none rfl⟩

end PoorKids
